import Mathlib

/-!
Verification of the circular-construction simulation model.

The program is a single-file Streamlit app whose core is the pure function
`run_simulation(concrete_recycle, soil_reuse, rca_limit)`, which also reads
the two annual housing volumes (`houses_built_per_year`,
`houses_demolished_per_year`) from the surrounding configuration.  We embed
it shallowly: every module-level constant becomes a Lean constant, every
local of `run_simulation` becomes a named function of the five scalar
inputs (the two ambient volumes become explicit trailing parameters), and
the returned dict becomes the structure `SimulationResult`.  Arithmetic is
over ℚ, the exact counterpart of the program's real-number formulas.
-/

namespace CircularConstruction

/-- `concrete_per_house = 50`: tonnes of concrete demand per new house. -/
def concrete_per_house : ℚ := 50

/-- `concrete_per_deconstructed_house = 45`: tonnes recovered per demolished house. -/
def concrete_per_deconstructed_house : ℚ := 45

/-- `soil_per_deconstructed_house = 15`: tonnes of soil per demolished house. -/
def soil_per_deconstructed_house : ℚ := 15

/-- `cement_content_per_tonne = 0.3`: cement fraction of concrete mass. -/
def cement_content_per_tonne : ℚ := 0.3

/-- `emission_cement = 698` kg CO2 per tonne of cement. -/
def emission_cement : ℚ := 698

/-- `emission_aggregate = 9` kg CO2 per tonne of virgin aggregate. -/
def emission_aggregate : ℚ := 9

/-- `emission_transport_virgin = 100` kg CO2 per tonne transported. -/
def emission_transport_virgin : ℚ := 100

/-- `emission_transport_recycled = 50` kg CO2 per tonne transported. -/
def emission_transport_recycled : ℚ := 50

/-- `emission_waste_processing = 30` kg CO2 per tonne processed. -/
def emission_waste_processing : ℚ := 30

/-- `emission_soil = 10` kg CO2 per tonne of virgin soil. -/
def emission_soil : ℚ := 10

/-- Local `concrete_demand = houses_built_per_year * concrete_per_house`. -/
def concrete_demand (houses_built : ℚ) : ℚ :=
  houses_built * concrete_per_house

/-- Local `concrete_deconstruction = houses_demolished_per_year * concrete_per_deconstructed_house`. -/
def concrete_deconstruction (houses_demolished : ℚ) : ℚ :=
  houses_demolished * concrete_per_deconstructed_house

/-- Local `soil_from_demo = houses_demolished_per_year * soil_per_deconstructed_house`. -/
def soil_from_demo (houses_demolished : ℚ) : ℚ :=
  houses_demolished * soil_per_deconstructed_house

/-- Local `recycled = concrete_deconstruction * concrete_recycle`. -/
def recycled (concrete_recycle houses_demolished : ℚ) : ℚ :=
  concrete_deconstruction houses_demolished * concrete_recycle

/-- Local `reused_soil = soil_from_demo * soil_reuse`. -/
def reused_soil (soil_reuse houses_demolished : ℚ) : ℚ :=
  soil_from_demo houses_demolished * soil_reuse

/-- Local `used_rca = min(recycled, concrete_demand * rca_limit)`. -/
def used_rca (concrete_recycle rca_limit houses_built houses_demolished : ℚ) : ℚ :=
  min (recycled concrete_recycle houses_demolished)
    (concrete_demand houses_built * rca_limit)

/-- Local `virgin = concrete_demand - used_rca`. -/
def virgin (concrete_recycle rca_limit houses_built houses_demolished : ℚ) : ℚ :=
  concrete_demand houses_built -
    used_rca concrete_recycle rca_limit houses_built houses_demolished

/-- Local `virgin_soil = soil_from_demo - reused_soil`. -/
def virgin_soil (soil_reuse houses_demolished : ℚ) : ℚ :=
  soil_from_demo houses_demolished - reused_soil soil_reuse houses_demolished

/-- Local `co2_cement = concrete_demand * cement_content_per_tonne * emission_cement`. -/
def co2_cement (houses_built : ℚ) : ℚ :=
  concrete_demand houses_built * cement_content_per_tonne * emission_cement

/-- Local `co2_aggregate = virgin * emission_aggregate`. -/
def co2_aggregate (concrete_recycle rca_limit houses_built houses_demolished : ℚ) : ℚ :=
  virgin concrete_recycle rca_limit houses_built houses_demolished * emission_aggregate

/-- Local `co2_transport_virgin = virgin * emission_transport_virgin`. -/
def co2_transport_virgin (concrete_recycle rca_limit houses_built houses_demolished : ℚ) : ℚ :=
  virgin concrete_recycle rca_limit houses_built houses_demolished * emission_transport_virgin

/-- Local `co2_transport_recycled = used_rca * emission_transport_recycled`. -/
def co2_transport_recycled (concrete_recycle rca_limit houses_built houses_demolished : ℚ) : ℚ :=
  used_rca concrete_recycle rca_limit houses_built houses_demolished *
    emission_transport_recycled

/-- Local `co2_waste = concrete_deconstruction * emission_waste_processing`. -/
def co2_waste (houses_demolished : ℚ) : ℚ :=
  concrete_deconstruction houses_demolished * emission_waste_processing

/-- Local `co2_soil = virgin_soil * emission_soil`. -/
def co2_soil (soil_reuse houses_demolished : ℚ) : ℚ :=
  virgin_soil soil_reuse houses_demolished * emission_soil

/-- Local `co2_total`: the sum of the six CO2 components. -/
def co2_total (concrete_recycle soil_reuse rca_limit houses_built houses_demolished : ℚ) : ℚ :=
  co2_cement houses_built +
  co2_aggregate concrete_recycle rca_limit houses_built houses_demolished +
  co2_transport_virgin concrete_recycle rca_limit houses_built houses_demolished +
  co2_transport_recycled concrete_recycle rca_limit houses_built houses_demolished +
  co2_waste houses_demolished +
  co2_soil soil_reuse houses_demolished

/-- The value dict returned by `run_simulation`, with the nested
`co2_breakdown` dict kept as its ordered list of (label, value) pairs. -/
structure SimulationResult where
  total_co2 : ℚ
  recycled_concrete : ℚ
  virgin_aggregate : ℚ
  reused_soil : ℚ
  virgin_soil : ℚ
  sand_gravel_saved : ℚ
  co2_breakdown : List (String × ℚ)
  deriving Repr, DecidableEq

/-- The simulation function `run_simulation(concrete_recycle, soil_reuse,
rca_limit)`.  In the source the two housing volumes are read from ambient
module-level values; here they are the two trailing explicit parameters. -/
def run_simulation (concrete_recycle soil_reuse rca_limit
    houses_built_per_year houses_demolished_per_year : ℚ) : SimulationResult :=
  { total_co2 := co2_total concrete_recycle soil_reuse rca_limit
      houses_built_per_year houses_demolished_per_year
    recycled_concrete := recycled concrete_recycle houses_demolished_per_year
    virgin_aggregate := virgin concrete_recycle rca_limit
      houses_built_per_year houses_demolished_per_year
    reused_soil := reused_soil soil_reuse houses_demolished_per_year
    virgin_soil := virgin_soil soil_reuse houses_demolished_per_year
    sand_gravel_saved := used_rca concrete_recycle rca_limit
      houses_built_per_year houses_demolished_per_year
    co2_breakdown :=
      [("Cement Production", co2_cement houses_built_per_year),
       ("Virgin Aggregate", co2_aggregate concrete_recycle rca_limit
          houses_built_per_year houses_demolished_per_year),
       ("Transport (Virgin)", co2_transport_virgin concrete_recycle rca_limit
          houses_built_per_year houses_demolished_per_year),
       ("Transport (Recycled)", co2_transport_recycled concrete_recycle rca_limit
          houses_built_per_year houses_demolished_per_year),
       ("Waste Processing", co2_waste houses_demolished_per_year),
       ("Virgin Soil", co2_soil soil_reuse houses_demolished_per_year)] }

/-- The six metric labels of the comparison table (`df_compare`'s Metric column). -/
def metric_names : List String :=
  ["Total CO2", "Recycled Concrete", "Virgin Aggregate", "Reused Soil",
   "Virgin Soil", "Sand & Gravel Saved"]

/-- The values of the six compared metrics of one simulation result, in the
order the comparison block reads them out of the result dict. -/
def metric_values (r : SimulationResult) : List ℚ :=
  [r.total_co2, r.recycled_concrete, r.virgin_aggregate, r.reused_soil,
   r.virgin_soil, r.sand_gravel_saved]

/-- One scenario parameter set of the comparison section (the three sliders
of column A or B). -/
structure Scenario where
  concrete : ℚ
  soil : ℚ
  rca : ℚ
  deriving Repr, DecidableEq

/-- The `Compare Scenarios` block: run `run_simulation` on scenario A, then
on scenario B, and tabulate the six metrics as rows
(metric name, value under A, value under B). -/
def compare_scenarios (a b : Scenario)
    (houses_built_per_year houses_demolished_per_year : ℚ) :
    List (String × ℚ × ℚ) :=
  let result_a := run_simulation a.concrete a.soil a.rca
    houses_built_per_year houses_demolished_per_year
  let result_b := run_simulation b.concrete b.soil b.rca
    houses_built_per_year houses_demolished_per_year
  metric_names.zip ((metric_values result_a).zip (metric_values result_b))

end CircularConstruction

namespace CircularConstruction

/-! ### Helper lemmas shared across claims -/

lemma recycled_nonneg {cr hd : ℚ} (hcr : 0 ≤ cr) (hhd : 0 ≤ hd) :
    0 ≤ recycled cr hd := by
  unfold recycled concrete_deconstruction concrete_per_deconstructed_house
  positivity

lemma demand_cap_nonneg {rl hb : ℚ} (hrl : 0 ≤ rl) (hhb : 0 ≤ hb) :
    0 ≤ concrete_demand hb * rl := by
  unfold concrete_demand concrete_per_house
  positivity

lemma used_rca_nonneg {cr rl hb hd : ℚ} (hcr : 0 ≤ cr) (hrl : 0 ≤ rl)
    (hhb : 0 ≤ hb) (hhd : 0 ≤ hd) : 0 ≤ used_rca cr rl hb hd :=
  le_min (recycled_nonneg hcr hhd) (demand_cap_nonneg hrl hhb)

lemma used_rca_le_demand {cr rl hb hd : ℚ} (hrl1 : rl ≤ 1) (hhb : 0 ≤ hb) :
    used_rca cr rl hb hd ≤ concrete_demand hb := by
  refine le_trans (min_le_right _ _) ?_
  unfold concrete_demand concrete_per_house
  nlinarith

lemma virgin_nonneg {cr rl hb hd : ℚ} (hrl1 : rl ≤ 1) (hhb : 0 ≤ hb) :
    0 ≤ virgin cr rl hb hd := by
  unfold virgin
  have h := @used_rca_le_demand cr rl hb hd hrl1 hhb
  linarith

lemma virgin_soil_nonneg {sr hd : ℚ} (hsr1 : sr ≤ 1) (hhd : 0 ≤ hd) :
    0 ≤ virgin_soil sr hd := by
  unfold virgin_soil reused_soil soil_from_demo soil_per_deconstructed_house
  nlinarith

end CircularConstruction

namespace CircularConstruction

/-! ### Claim theorems -/

/-- Claim C1: in `run_simulation`, the used recycled-concrete-aggregate
quantity (the `Sand & Gravel Saved` output) equals
`min(recycled, concrete_demand * rca_limit)`; consequently, for fraction
inputs in [0,1] and non-negative house counts, it is at most `recycled`
and at most `concrete_demand * rca_limit`; and it is not
`recycled * rca_limit` (witnessed at `cr = 1, rl = 1/2, hb = hd = 1`,
where the code yields 25 but the product formula yields 45/2). -/
theorem C1_used_rca_is_min (cr sr rl hb hd : ℚ)
    (hcr0 : 0 ≤ cr) (hcr1 : cr ≤ 1) (hsr0 : 0 ≤ sr) (hsr1 : sr ≤ 1)
    (hrl0 : 0 ≤ rl) (hrl1 : rl ≤ 1) (hhb : 0 ≤ hb) (hhd : 0 ≤ hd) :
    (run_simulation cr sr rl hb hd).sand_gravel_saved
        = min (recycled cr hd) (concrete_demand hb * rl) ∧
    (run_simulation cr sr rl hb hd).sand_gravel_saved ≤ recycled cr hd ∧
    (run_simulation cr sr rl hb hd).sand_gravel_saved ≤ concrete_demand hb * rl ∧
    (run_simulation 1 0 (1/2) 1 1).sand_gravel_saved ≠ recycled 1 1 * (1/2) := by
  refine ⟨rfl, min_le_left _ _, min_le_right _ _, ?_⟩
  norm_num [run_simulation, used_rca, recycled, concrete_deconstruction,
    concrete_demand, concrete_per_house, concrete_per_deconstructed_house]

/-- Witness for C1 at the app's default slider values. -/
theorem C1_used_rca_is_min_witness :
    (run_simulation 0.3 0.2 0.3 25000 1500).sand_gravel_saved
        = min (recycled 0.3 1500) (concrete_demand 25000 * 0.3) ∧
    (run_simulation 0.3 0.2 0.3 25000 1500).sand_gravel_saved ≤ recycled 0.3 1500 ∧
    (run_simulation 0.3 0.2 0.3 25000 1500).sand_gravel_saved
        ≤ concrete_demand 25000 * 0.3 ∧
    (run_simulation 1 0 (1/2) 1 1).sand_gravel_saved ≠ recycled 1 1 * (1/2) :=
  C1_used_rca_is_min 0.3 0.2 0.3 25000 1500 (by norm_num) (by norm_num)
    (by norm_num) (by norm_num) (by norm_num) (by norm_num) (by norm_num)
    (by norm_num)

/-- Claim C2: mass conservation.  For every input,
`virgin + used_rca = concrete_demand` and
`virgin_soil + reused_soil = soil_from_demo`, exactly. -/
theorem C2_mass_conservation (cr sr rl hb hd : ℚ) :
    (run_simulation cr sr rl hb hd).virgin_aggregate
        + (run_simulation cr sr rl hb hd).sand_gravel_saved = concrete_demand hb ∧
    (run_simulation cr sr rl hb hd).virgin_soil
        + (run_simulation cr sr rl hb hd).reused_soil = soil_from_demo hd := by
  constructor
  · show virgin cr rl hb hd + used_rca cr rl hb hd = concrete_demand hb
    unfold virgin; ring
  · show virgin_soil sr hd + reused_soil sr hd = soil_from_demo hd
    unfold virgin_soil; ring

/-- Claim C3: the returned total equals exactly the sum of the six CO2
breakdown components, and each component is given by the step-9 formula
(cement from total demand, aggregate and virgin transport from the virgin
portion, recycled transport from `used_rca`, waste from
`concrete_deconstruction`, soil from `virgin_soil`). -/
theorem C3_total_is_sum_of_breakdown (cr sr rl hb hd : ℚ) :
    (run_simulation cr sr rl hb hd).total_co2
        = ((run_simulation cr sr rl hb hd).co2_breakdown.map Prod.snd).sum ∧
    (run_simulation cr sr rl hb hd).co2_breakdown.map Prod.snd =
      [concrete_demand hb * cement_content_per_tonne * emission_cement,
       virgin cr rl hb hd * emission_aggregate,
       virgin cr rl hb hd * emission_transport_virgin,
       used_rca cr rl hb hd * emission_transport_recycled,
       concrete_deconstruction hd * emission_waste_processing,
       virgin_soil sr hd * emission_soil] := by
  constructor
  · show co2_total cr sr rl hb hd =
      [co2_cement hb, co2_aggregate cr rl hb hd, co2_transport_virgin cr rl hb hd,
       co2_transport_recycled cr rl hb hd, co2_waste hd, co2_soil sr hd].sum
    simp [co2_total, List.sum]
    ring
  · rfl

end CircularConstruction

namespace CircularConstruction

/-- Claim C4: monotonicity.  For fraction inputs in [0,1] and non-negative
house counts, with `soil_reuse`, `rca_limit` and both house counts fixed,
increasing `concrete_recycle` never increases the total CO2. -/
theorem C4_total_co2_antitone_in_recycle (cr cr' sr rl hb hd : ℚ)
    (hcr0 : 0 ≤ cr) (hcr1 : cr' ≤ 1) (hsr0 : 0 ≤ sr) (hsr1 : sr ≤ 1)
    (hrl0 : 0 ≤ rl) (hrl1 : rl ≤ 1) (hhb : 0 ≤ hb) (hhd : 0 ≤ hd)
    (hle : cr ≤ cr') :
    (run_simulation cr' sr rl hb hd).total_co2
      ≤ (run_simulation cr sr rl hb hd).total_co2 := by
  have hmono : used_rca cr rl hb hd ≤ used_rca cr' rl hb hd := by
    refine min_le_min ?_ le_rfl
    unfold recycled concrete_deconstruction concrete_per_deconstructed_house
    nlinarith
  show co2_total cr' sr rl hb hd ≤ co2_total cr sr rl hb hd
  unfold co2_total co2_cement co2_aggregate co2_transport_virgin
    co2_transport_recycled co2_waste co2_soil virgin emission_aggregate
    emission_transport_virgin emission_transport_recycled
  linarith

/-- Witness for C4: raising the recycle fraction from 0.3 to 0.6 at the
default volumes does not increase the total. -/
theorem C4_total_co2_antitone_in_recycle_witness :
    (run_simulation 0.6 0.2 0.3 25000 1500).total_co2
      ≤ (run_simulation 0.3 0.2 0.3 25000 1500).total_co2 :=
  C4_total_co2_antitone_in_recycle 0.3 0.6 0.2 0.3 25000 1500 (by norm_num)
    (by norm_num) (by norm_num) (by norm_num) (by norm_num) (by norm_num)
    (by norm_num) (by norm_num) (by norm_num)

/-- Claim C5: zero boundaries.  For non-negative house counts and fractions
in [0,1]: `concrete_recycle = 0` gives `recycled = 0`, `used_rca = 0`
and `virgin = concrete_demand`; and `rca_limit = 0` gives `used_rca = 0`
whatever `concrete_recycle` is. -/
theorem C5_zero_boundaries (cr sr rl hb hd : ℚ)
    (hcr0 : 0 ≤ cr) (hcr1 : cr ≤ 1) (hsr0 : 0 ≤ sr) (hsr1 : sr ≤ 1)
    (hrl0 : 0 ≤ rl) (hrl1 : rl ≤ 1) (hhb : 0 ≤ hb) (hhd : 0 ≤ hd) :
    ((run_simulation 0 sr rl hb hd).recycled_concrete = 0 ∧
     (run_simulation 0 sr rl hb hd).sand_gravel_saved = 0 ∧
     (run_simulation 0 sr rl hb hd).virgin_aggregate = concrete_demand hb) ∧
    (run_simulation cr sr 0 hb hd).sand_gravel_saved = 0 := by
  have hrec0 : recycled 0 hd = 0 := by
    unfold recycled; ring
  have hused0 : used_rca 0 rl hb hd = 0 := by
    unfold used_rca
    rw [hrec0]
    exact min_eq_left (demand_cap_nonneg hrl0 hhb)
  refine ⟨⟨hrec0, hused0, ?_⟩, ?_⟩
  · show virgin 0 rl hb hd = concrete_demand hb
    unfold virgin
    rw [hused0, sub_zero]
  · show used_rca cr 0 hb hd = 0
    unfold used_rca
    rw [show concrete_demand hb * 0 = 0 by ring]
    exact min_eq_right (recycled_nonneg hcr0 hhd)

/-- Witness for C5 at the default soil-reuse and volumes. -/
theorem C5_zero_boundaries_witness :
    ((run_simulation 0 0.2 0.3 25000 1500).recycled_concrete = 0 ∧
     (run_simulation 0 0.2 0.3 25000 1500).sand_gravel_saved = 0 ∧
     (run_simulation 0 0.2 0.3 25000 1500).virgin_aggregate
        = concrete_demand 25000) ∧
    (run_simulation 0.3 0.2 0 25000 1500).sand_gravel_saved = 0 :=
  C5_zero_boundaries 0.3 0.2 0.3 25000 1500 (by norm_num) (by norm_num)
    (by norm_num) (by norm_num) (by norm_num) (by norm_num) (by norm_num)
    (by norm_num)

/-- Claim C6: the concrete scenario `housesBuilt = 25000,
housesDemolished = 1500, concreteRecycle = 0.3, soilReuse = 0.2,
rcaLimit = 0.3` yields demand 1,250,000 t, deconstruction 67,500 t,
recycled 20,250 t, ceiling 375,000 t, used RCA 20,250 t, virgin
1,229,750 t, and total CO2 equal to the reference value 399,010,250 kg —
exact in ℚ, hence within the 1e-6 relative tolerance. -/
theorem C6_concrete_scenario :
    concrete_demand 25000 = 1250000 ∧
    concrete_deconstruction 1500 = 67500 ∧
    (run_simulation 0.3 0.2 0.3 25000 1500).recycled_concrete = 20250 ∧
    concrete_demand 25000 * 0.3 = 375000 ∧
    (run_simulation 0.3 0.2 0.3 25000 1500).sand_gravel_saved = 20250 ∧
    (run_simulation 0.3 0.2 0.3 25000 1500).virgin_aggregate = 1229750 ∧
    (run_simulation 0.3 0.2 0.3 25000 1500).total_co2 = 399010250 ∧
    |(run_simulation 0.3 0.2 0.3 25000 1500).total_co2 - 399010250|
      ≤ (1 / 1000000) * 399010250 := by
  norm_num [run_simulation, co2_total, co2_cement, co2_aggregate,
    co2_transport_virgin, co2_transport_recycled, co2_waste, co2_soil,
    virgin, virgin_soil, used_rca, recycled, reused_soil, soil_from_demo,
    concrete_demand, concrete_deconstruction, concrete_per_house,
    concrete_per_deconstructed_house, soil_per_deconstructed_house,
    cement_content_per_tonne, emission_cement, emission_aggregate,
    emission_transport_virgin, emission_transport_recycled,
    emission_waste_processing, emission_soil]

/-- Claim C7: comparator independence.  `compare_scenarios A B` is the
six-row table whose name column is the six fixed metric labels, whose
Scenario A column is exactly the metric values of `run_simulation` on A
alone, and whose Scenario B column is exactly the metric values of
`run_simulation` on B alone. -/
theorem C7_comparator_independence (a b : Scenario) (hb hd : ℚ) :
    compare_scenarios a b hb hd =
      metric_names.zip
        ((metric_values (run_simulation a.concrete a.soil a.rca hb hd)).zip
          (metric_values (run_simulation b.concrete b.soil b.rca hb hd))) ∧
    (compare_scenarios a b hb hd).map Prod.fst = metric_names ∧
    (compare_scenarios a b hb hd).map (fun row => row.2.1)
        = metric_values (run_simulation a.concrete a.soil a.rca hb hd) ∧
    (compare_scenarios a b hb hd).map (fun row => row.2.2)
        = metric_values (run_simulation b.concrete b.soil b.rca hb hd) ∧
    (compare_scenarios a b hb hd).length = 6 := by
  refine ⟨rfl, rfl, rfl, rfl, rfl⟩

end CircularConstruction

namespace CircularConstruction

/-- Claim C8: purity and determinism.  The simulation depends on exactly
the three fractions and the two annual house volumes: two invocations
with the same five inputs return equal `SimulationResult`s. -/
theorem C8_deterministic (cr sr rl hb hd cr' sr' rl' hb' hd' : ℚ)
    (h1 : cr = cr') (h2 : sr = sr') (h3 : rl = rl') (h4 : hb = hb')
    (h5 : hd = hd') :
    run_simulation cr sr rl hb hd = run_simulation cr' sr' rl' hb' hd' := by
  rw [h1, h2, h3, h4, h5]

/-- Witness for C8 at the default inputs. -/
theorem C8_deterministic_witness :
    run_simulation 0.3 0.2 0.3 25000 1500
      = run_simulation 0.3 0.2 0.3 25000 1500 :=
  C8_deterministic 0.3 0.2 0.3 25000 1500 0.3 0.2 0.3 25000 1500 rfl rfl rfl
    rfl rfl

/-- Claim C9: frame property.  For any two inputs that agree on the house
counts but take arbitrary (possibly different) values of the three
fractions, the `Cement Production` and `Waste Processing` breakdown
entries are unchanged: cement depends only on `houses_built` and waste
only on `houses_demolished`. -/
theorem C9_cement_waste_frame (cr sr rl cr' sr' rl' hb hd : ℚ) :
    (run_simulation cr sr rl hb hd).co2_breakdown.lookup "Cement Production"
      = (run_simulation cr' sr' rl' hb hd).co2_breakdown.lookup
          "Cement Production" ∧
    (run_simulation cr sr rl hb hd).co2_breakdown.lookup "Waste Processing"
      = (run_simulation cr' sr' rl' hb hd).co2_breakdown.lookup
          "Waste Processing" ∧
    (run_simulation cr sr rl hb hd).co2_breakdown.lookup "Cement Production"
      = some (co2_cement hb) ∧
    (run_simulation cr sr rl hb hd).co2_breakdown.lookup "Waste Processing"
      = some (co2_waste hd) := by
  refine ⟨?_, ?_, ?_, ?_⟩ <;>
    simp [run_simulation, List.lookup]

end CircularConstruction

namespace CircularConstruction

/-- Claim C10: non-negativity.  For fraction inputs in [0,1] and
non-negative house counts, every returned quantity — the total, the five
material metrics, and every value in the CO2 breakdown — is non-negative. -/
theorem C10_outputs_nonneg (cr sr rl hb hd : ℚ)
    (hcr0 : 0 ≤ cr) (hcr1 : cr ≤ 1) (hsr0 : 0 ≤ sr) (hsr1 : sr ≤ 1)
    (hrl0 : 0 ≤ rl) (hrl1 : rl ≤ 1) (hhb : 0 ≤ hb) (hhd : 0 ≤ hd) :
    0 ≤ (run_simulation cr sr rl hb hd).total_co2 ∧
    0 ≤ (run_simulation cr sr rl hb hd).recycled_concrete ∧
    0 ≤ (run_simulation cr sr rl hb hd).virgin_aggregate ∧
    0 ≤ (run_simulation cr sr rl hb hd).reused_soil ∧
    0 ≤ (run_simulation cr sr rl hb hd).virgin_soil ∧
    0 ≤ (run_simulation cr sr rl hb hd).sand_gravel_saved ∧
    ∀ p ∈ (run_simulation cr sr rl hb hd).co2_breakdown, 0 ≤ p.2 := by
  have hdemand : 0 ≤ concrete_demand hb := by
    unfold concrete_demand concrete_per_house; positivity
  have hdecon : 0 ≤ concrete_deconstruction hd := by
    unfold concrete_deconstruction concrete_per_deconstructed_house; positivity
  have hrec : 0 ≤ recycled cr hd := recycled_nonneg hcr0 hhd
  have hused : 0 ≤ used_rca cr rl hb hd := used_rca_nonneg hcr0 hrl0 hhb hhd
  have hvir : 0 ≤ virgin cr rl hb hd := virgin_nonneg hrl1 hhb
  have hreuse : 0 ≤ reused_soil sr hd := by
    unfold reused_soil soil_from_demo soil_per_deconstructed_house; positivity
  have hvsoil : 0 ≤ virgin_soil sr hd := virgin_soil_nonneg hsr1 hhd
  have hcem : 0 ≤ co2_cement hb := by
    unfold co2_cement cement_content_per_tonne emission_cement
    nlinarith
  have hagg : 0 ≤ co2_aggregate cr rl hb hd := by
    unfold co2_aggregate emission_aggregate; nlinarith
  have htv : 0 ≤ co2_transport_virgin cr rl hb hd := by
    unfold co2_transport_virgin emission_transport_virgin; nlinarith
  have htr : 0 ≤ co2_transport_recycled cr rl hb hd := by
    unfold co2_transport_recycled emission_transport_recycled; nlinarith
  have hwaste : 0 ≤ co2_waste hd := by
    unfold co2_waste emission_waste_processing; nlinarith
  have hsoilc : 0 ≤ co2_soil sr hd := by
    unfold co2_soil emission_soil; nlinarith
  have htot : 0 ≤ co2_total cr sr rl hb hd := by
    unfold co2_total; linarith
  refine ⟨htot, hrec, hvir, hreuse, hvsoil, hused, ?_⟩
  intro p hp
  simp only [run_simulation, List.mem_cons, List.not_mem_nil, or_false] at hp
  rcases hp with h | h | h | h | h | h <;> rw [h] <;> assumption

/-- Witness for C10 at the default inputs. -/
theorem C10_outputs_nonneg_witness :
    0 ≤ (run_simulation 0.3 0.2 0.3 25000 1500).total_co2 ∧
    0 ≤ (run_simulation 0.3 0.2 0.3 25000 1500).recycled_concrete ∧
    0 ≤ (run_simulation 0.3 0.2 0.3 25000 1500).virgin_aggregate ∧
    0 ≤ (run_simulation 0.3 0.2 0.3 25000 1500).reused_soil ∧
    0 ≤ (run_simulation 0.3 0.2 0.3 25000 1500).virgin_soil ∧
    0 ≤ (run_simulation 0.3 0.2 0.3 25000 1500).sand_gravel_saved ∧
    ∀ p ∈ (run_simulation 0.3 0.2 0.3 25000 1500).co2_breakdown, 0 ≤ p.2 :=
  C10_outputs_nonneg 0.3 0.2 0.3 25000 1500 (by norm_num) (by norm_num)
    (by norm_num) (by norm_num) (by norm_num) (by norm_num) (by norm_num)
    (by norm_num)

end CircularConstruction
